import Mathlib

/-!
Verification of the llm-gateway request-processing plane.

Shallow embedding of the Go sources:
  internal/provider/provider.go     (data model, Provider contract)
  internal/worker/worker.go         (Router, circuit-breaker wiring, Handler)
  pkg/ratelimit/ratelimit.go        (Limiter facade)
  internal/provider/claude/claude.go (Claude adapter request/response mapping)
  openai adapter                    (stream translation loop)

Conventions of the embedding:
  * Go `float64` provider costs and temperatures are modelled as ℚ.
  * Go `int` / `int64` are modelled as Int.
  * Fallible Go calls return `Except String α`; upstream I/O (HTTP round
    trips, the limiter's distributed store, JSON unmarshalling) is abstracted
    as function parameters so every claim quantifies over their behaviour.
  * The handlers additionally return an ordered list of `GEvent`s recording
    the limiter debit, the Route call, provider invocations and the
    asynchronous usage-log enqueue, so that control-flow claims ("without
    calling Route", "exactly one usage log") are statable.
-/

namespace LLMGateway

/-- internal/provider/provider.go `Message`. -/
structure Message where
  role : String
  content : String
  deriving DecidableEq

/-- internal/provider/provider.go `Request` (the unified request). -/
structure Request where
  model : String
  messages : List Message
  maxTokens : Int
  temperature : ℚ
  stream : Bool
  deriving DecidableEq

/-- internal/provider/provider.go `Response` (the unified response). -/
structure Response where
  id : String
  content : String
  inputTokens : Int
  outputTokens : Int
  model : String
  provider : String
  latencyMs : Int
  deriving DecidableEq

/-- internal/provider/provider.go `Chunk` (one stream event). `err = some m`
plays Go's non-nil `Err`. -/
structure Chunk where
  delta : String
  done : Bool
  err : Option String
  deriving DecidableEq

/-- internal/billing/billing.go `UsageLog` (the fields the handlers fill). -/
structure UsageLog where
  tenantID : String
  requestID : String
  provider : String
  model : String
  inputTokens : Int
  outputTokens : Int
  costUSD : ℚ
  latencyMs : Int
  deriving DecidableEq

/-- internal/provider/provider.go `Provider` interface. The two effectful
methods are data (their behaviour is a parameter of each claim). -/
structure Provider where
  name : String
  costPerInputToken : ℚ
  costPerOutputToken : ℚ
  supportedModels : List String
  complete : Request → Except String Response
  completeStream : Request → Except String (List Chunk)

/-- gobreaker's three states; `opened` is gobreaker's `StateOpen` (`open` is a
Lean keyword). -/
inductive BreakerState where
  | closed
  | halfOpen
  | opened
  deriving DecidableEq

/-- Modelled from the spec: the per-provider circuit breaker of section 4.4.
The breaker implementation is the external `github.com/sony/gobreaker`
dependency (not part of this repository's sources); this model follows the
spec's state machine with the settings worker.go's `NewRouter` installs:
trip after 3 consecutive failures, open for 30 seconds, counters reset at
each 5-second interval while closed, 3 half-open probes. Time is an Int
count of seconds. -/
structure Breaker where
  state : BreakerState
  consecutiveFailures : Nat
  consecutiveSuccesses : Nat
  requests : Nat
  generationStart : Int
  openedAt : Int
  deriving DecidableEq

/-- Modelled from the spec: a fresh (closed) breaker, as built by `NewRouter`
at registration time `t0`. -/
def newBreaker (t0 : Int) : Breaker :=
  { state := .closed, consecutiveFailures := 0, consecutiveSuccesses := 0,
    requests := 0, generationStart := t0, openedAt := 0 }

/-- Modelled from the spec: the lazy time-driven transitions observed by every
breaker operation — while closed, counters reset once the 5-second interval
has elapsed; while open, the breaker moves to half-open once 30 seconds have
elapsed. -/
def Breaker.refresh (b : Breaker) (now : Int) : Breaker :=
  match b.state with
  | .closed =>
    if b.generationStart + 5 < now then
      { b with consecutiveFailures := 0, consecutiveSuccesses := 0, requests := 0,
               generationStart := now }
    else b
  | .opened =>
    if b.openedAt + 30 < now then
      { b with state := .halfOpen, consecutiveFailures := 0, consecutiveSuccesses := 0,
               requests := 0, generationStart := now }
    else b
  | .halfOpen => b

/-- Modelled from the spec: bookkeeping after a successful wrapped call. -/
def Breaker.onSuccess (b : Breaker) (now : Int) : Breaker :=
  match b.state with
  | .closed =>
    { b with consecutiveSuccesses := b.consecutiveSuccesses + 1, consecutiveFailures := 0 }
  | .halfOpen =>
    if 3 ≤ b.consecutiveSuccesses + 1 then
      { b with state := .closed, consecutiveFailures := 0, consecutiveSuccesses := 0,
               requests := 0, generationStart := now }
    else
      { b with consecutiveSuccesses := b.consecutiveSuccesses + 1, consecutiveFailures := 0 }
  | .opened => b

/-- Modelled from the spec: bookkeeping after a failed wrapped call — the
third consecutive failure while closed trips the breaker; any failure while
half-open reopens it. -/
def Breaker.onFailure (b : Breaker) (now : Int) : Breaker :=
  match b.state with
  | .closed =>
    if 3 ≤ b.consecutiveFailures + 1 then
      { b with state := .opened, consecutiveFailures := 0, consecutiveSuccesses := 0,
               requests := 0, openedAt := now }
    else
      { b with consecutiveFailures := b.consecutiveFailures + 1, consecutiveSuccesses := 0 }
  | .halfOpen =>
    { b with state := .opened, consecutiveFailures := 0, consecutiveSuccesses := 0,
             requests := 0, openedAt := now }
  | .opened => b

/-- Modelled from the spec: run the wrapped operation and record its outcome. -/
def Breaker.runOp (b : Breaker) (now : Int) (op : Unit → Except String Response) :
    Breaker × Except String Response × Bool :=
  match op () with
  | .ok r => (b.onSuccess now, .ok r, true)
  | .error e => (b.onFailure now, .error e, true)

/-- Modelled from the spec: gobreaker's `Execute` as configured by `NewRouter`.
Returns the updated breaker, the call's result (or the synthesised
breaker-open / probe-budget error), and whether the wrapped operation was
attempted at all. -/
def Breaker.exec (b : Breaker) (now : Int) (op : Unit → Except String Response) :
    Breaker × Except String Response × Bool :=
  let b := b.refresh now
  match b.state with
  | .opened => (b, .error "circuit breaker is open", false)
  | .halfOpen =>
    if 3 ≤ b.requests then (b, .error "too many requests", false)
    else Breaker.runOp { b with requests := b.requests + 1 } now op
  | .closed => Breaker.runOp { b with requests := b.requests + 1 } now op

/-- worker.go `Router`: the registered providers in order, and one breaker per
provider name (the Go map is modelled as a total function). -/
structure Router where
  providers : List Provider
  breakers : String → Breaker

/-- worker.go `NewRouter`: every provider starts with a fresh closed breaker
(`t0` is startup time). -/
def NewRouter (providers : List Provider) (t0 : Int) : Router :=
  { providers := providers, breakers := fun _ => newBreaker t0 }

/-- Point update of the breaker map. -/
def Router.update (rt : Router) (pname : String) (b : Breaker) : Router :=
  { rt with breakers := fun n => if n = pname then b else rt.breakers n }

/-- worker.go `Route`'s candidate test: the provider's breaker is not open
(`cb.State()` performs the time-driven refresh), and when a model is pinned
the provider advertises it. -/
def Router.candidateB (rt : Router) (now : Int) (req : Request) (p : Provider) : Bool :=
  !(((rt.breakers p.name).refresh now).state == BreakerState.opened) &&
    (req.model == "" || p.supportedModels.contains req.model)

/-- worker.go `Route`'s cost scan: `best := candidates[0]; for p in rest { if
p.CostPerInputToken() < best.CostPerInputToken() { best = p } }`. -/
def pickCheapest (best : Provider) : List Provider → Provider
  | [] => best
  | p :: ps => pickCheapest (if p.costPerInputToken < best.costPerInputToken then p else best) ps

/-- worker.go `Router.Route`. -/
def Router.route (rt : Router) (now : Int) (req : Request) : Except String Provider :=
  let candidates := rt.providers.filter (rt.candidateB now req)
  match candidates with
  | [] => .error "all providers unavailable"
  | c :: rest => if req.model ≠ "" then .ok c else .ok (pickCheapest c rest)

/-- worker.go `Router.Execute`: the provider's `Complete` through its breaker.
The Bool records whether the provider was actually invoked. -/
def Router.execute (rt : Router) (now : Int) (req : Request) (p : Provider) :
    Router × Except String Response × Bool :=
  let r := (rt.breakers p.name).exec now (fun _ => p.complete req)
  (rt.update p.name r.1, r.2.1, r.2.2)

/-- worker.go `Router.ExecuteStream`'s forwarding goroutine, on the delivered
chunk sequence: every error chunk is reported to the breaker as a failure,
and every chunk is forwarded in order until the upstream closes. -/
def wrapStream (cb : Breaker) (now : Int) : List Chunk → Breaker × List Chunk
  | [] => (cb, [])
  | c :: rest =>
    let cb := match c.err with
      | some e => (cb.exec now (fun _ => .error e)).1
      | none => cb
    let r := wrapStream cb now rest
    (r.1, c :: r.2)

/-- worker.go `Router.ExecuteStream`. -/
def Router.executeStream (rt : Router) (now : Int) (req : Request) (p : Provider) :
    Router × Except String (List Chunk) × Bool :=
  let cb := (rt.breakers p.name).refresh now
  if cb.state = .opened then
    (rt.update p.name cb, .error ("circuit breaker is open for provider: " ++ p.name), false)
  else
    match p.completeStream req with
    | .error e =>
      let r := cb.exec now (fun _ => .error e)
      (rt.update p.name r.1, .error e, true)
    | .ok chunks =>
      let r := wrapStream cb now chunks
      (rt.update p.name r.1, .ok r.2, true)

/-- pkg/ratelimit/ratelimit.go `Limiter.Allow`: key by tenant, debit `tokens`
through the abstract distributed store; a store error yields
`(false, the error)` (fail-closed). -/
def limiterAllow (store : String → Int → Except String Bool) (tenantID : String)
    (tokens : Int) : Bool × Option String :=
  match store ("ratelimit:tenant:" ++ tenantID) tokens with
  | .error e => (false, some e)
  | .ok a => (a, none)

/-- Instrumentation of the handlers' control flow: the limiter debit
(`AllowN` with the estimated token count), the `Route` call, an actual
provider invocation through the breaker, and the asynchronous usage-log
enqueue (`go billing.LogUsage(...)`). -/
inductive GEvent where
  | limiterDebit (tenant : String) (tokens : Int)
  | routeCalled
  | providerCalled (name : String)
  | usageEnqueued (log : UsageLog)
  deriving DecidableEq

/-- An HTTP response as the handlers write it: status, the headers set, and
the body bytes (the spaces and key order below match Go's `encoding/json`,
which sorts map keys and ends `Encoder.Encode` with a newline). -/
structure HttpResponse where
  status : Nat
  headers : List (String × String)
  body : String
  deriving DecidableEq

/-- `json.NewEncoder(w).Encode(map[string]string\x7b"error": msg\x7d)`. JSON string
escaping of `msg` is not modelled; every message a claim touches is
escape-free. -/
def jsonErrorBody (msg : String) : String :=
  "\x7b\"error\":\"" ++ msg ++ "\"\x7d\n"

/-- The 429 body worker.go's `prepare` encodes (keys sorted by encoding/json). -/
def rateLimitBody : String :=
  "\x7b\"error\":\"rate limit exceeded\",\"retry_after\":\"60s\"\x7d\n"

/-- The inputs `prepare` draws from the request and its context: the resolved
tenant (Go's `auth.GetTenantID`, "" when absent), the request id from the
context, the JSON decode of the body (`none` = decode failure), the limiter's
distributed store, and the value `uuid.New().String()` would produce. -/
structure PrepareEnv where
  tenantID : String
  requestID : String
  decoded : Option Request
  store : String → Int → Except String Bool
  freshID : String

/-- worker.go lines 839-842: the limiter estimate — `max_tokens`, or 1000
when unspecified or non-positive. -/
def estimateTokens (req : Request) : Int :=
  if req.maxTokens ≤ 0 then 1000 else req.maxTokens

/-- worker.go `Handler.prepare`: authenticate → decode → estimate tokens →
admit via limiter → route. Returns either the error response written, or the
tuple `(tenantID, requestID, req, selectedProvider)`; alongside, the emitted
events. The tracing span is not modelled; the Go locals `requestID`,
`estimatedTokens` and the limiter call are written inline (same values). -/
def prepare (rt : Router) (now : Int) (env : PrepareEnv) :
    Except HttpResponse (String × String × Request × Provider) × List GEvent :=
  if env.tenantID = "" then
    (.error { status := 401, headers := [("Content-Type", "application/json")],
              body := jsonErrorBody "unauthorized" }, [])
  else
    match env.decoded with
    | none =>
      (.error { status := 400, headers := [("Content-Type", "application/json")],
                body := jsonErrorBody "invalid request body" }, [])
    | some req =>
      if (limiterAllow env.store env.tenantID (estimateTokens req)).2.isSome ∨
          (limiterAllow env.store env.tenantID (estimateTokens req)).1 = false then
        (.error { status := 429,
                  headers := [("Content-Type", "application/json"), ("Retry-After", "60s")],
                  body := rateLimitBody },
         [GEvent.limiterDebit env.tenantID (estimateTokens req)])
      else
        match rt.route now req with
        | .error e =>
          (.error { status := 503, headers := [("Content-Type", "application/json")],
                    body := jsonErrorBody e },
           [GEvent.limiterDebit env.tenantID (estimateTokens req), GEvent.routeCalled])
        | .ok p =>
          (.ok (env.tenantID, if env.requestID = "" then env.freshID else env.requestID,
              req, p),
           [GEvent.limiterDebit env.tenantID (estimateTokens req), GEvent.routeCalled])

/-- The OpenAI-compatible 200 body `HandleComplete` encodes, kept structured
(field for field the Go `map[string]interface\x7b\x7d` literal); its JSON
serialisation is not modelled since no claim inspects the 200 body bytes. -/
structure CompletionBody where
  id : String
  object : String
  model : String
  provider : String
  choiceIndex : Nat
  messageRole : String
  messageContent : String
  finishReason : String
  promptTokens : Int
  completionTokens : Int
  totalTokens : Int
  deriving DecidableEq

/-- What one handler call produces: the response written, the structured 200
body when there is one, the router (breaker states) afterwards, and the
instrumentation events in program order. -/
structure HandlerResult where
  resp : HttpResponse
  body200 : Option CompletionBody
  router : Router
  events : List GEvent

/-- worker.go `Handler.HandleComplete`. -/
def handleComplete (rt : Router) (now : Int) (env : PrepareEnv) : HandlerResult :=
  match prepare rt now env with
  | (.error resp, evs) => { resp := resp, body200 := none, router := rt, events := evs }
  | (.ok (tenantID, requestID, req, p), evs) =>
    let er := rt.execute now req p
    let evs := evs ++ (if er.2.2 then [GEvent.providerCalled p.name] else [])
    match er.2.1 with
    | .error e =>
      { resp := { status := 502, headers := [("Content-Type", "application/json")],
                  body := jsonErrorBody e },
        body200 := none, router := er.1, events := evs }
    | .ok response =>
      let log : UsageLog :=
        { tenantID := tenantID, requestID := requestID, provider := response.provider,
          model := response.model, inputTokens := response.inputTokens,
          outputTokens := response.outputTokens,
          costUSD := (response.inputTokens : ℚ) * p.costPerInputToken
            + (response.outputTokens : ℚ) * p.costPerOutputToken,
          latencyMs := response.latencyMs }
      let respID := if response.id = "" then env.freshID else response.id
      { resp := { status := 200, headers := [("Content-Type", "application/json")],
                  body := "" },
        body200 := some
          { id := respID, object := "chat.completion", model := response.model,
            provider := response.provider, choiceIndex := 0, messageRole := "assistant",
            messageContent := response.content, finishReason := "stop",
            promptTokens := response.inputTokens, completionTokens := response.outputTokens,
            totalTokens := response.inputTokens + response.outputTokens },
        router := er.1,
        events := evs ++ [GEvent.usageEnqueued log] }

/-- worker.go `HandleCompleteStream`'s hand escape of a delta before it is
spliced into the SSE JSON: `"` then newline. -/
def escapeDelta (s : String) : String :=
  (s.replace "\"" "\\\"").replace "\n" "\\n"

/-- The SSE frame `HandleCompleteStream` writes for a delta chunk. -/
def deltaFrame (s : String) : String :=
  "data: \x7b\"choices\":[\x7b\"delta\":\x7b\"content\":\"" ++ escapeDelta s ++
    "\"\x7d,\"index\":0\x7d]\x7d\n\n"

/-- The SSE frame for a done chunk. -/
def doneFrame : String := "data: [DONE]\n\n"

/-- The SSE frame for an error chunk. Note the space after the colon: the Go
format string is `data: \x7b\"error\": \"%s\"\x7d`. The message is not escaped. -/
def errorFrame (msg : String) : String :=
  "event: error\ndata: \x7b\"error\": \"" ++ msg ++ "\"\x7d\n\n"

/-- worker.go `HandleCompleteStream`'s write loop over the wrapped channel:
error chunk → error frame, stop; done chunk → `[DONE]`, stop; otherwise a
delta frame and continue. -/
def sseBody : List Chunk → String
  | [] => ""
  | c :: rest =>
    match c.err with
    | some e => errorFrame e
    | none => if c.done then doneFrame else deltaFrame c.delta ++ sseBody rest

/-- The usage log `HandleCompleteStream` enqueues after the stream ends: only
tenant, request id, provider name and requested model are filled (Go zero
values elsewhere). -/
def streamUsageLog (tenantID requestID pname model : String) : UsageLog :=
  { tenantID := tenantID, requestID := requestID, provider := pname, model := model,
    inputTokens := 0, outputTokens := 0, costUSD := 0, latencyMs := 0 }

/-- worker.go `Handler.HandleCompleteStream` (the flusher-missing 500 path is
not modelled: the recorder always supports flushing). -/
def handleCompleteStream (rt : Router) (now : Int) (env : PrepareEnv) : HandlerResult :=
  match prepare rt now env with
  | (.error resp, evs) => { resp := resp, body200 := none, router := rt, events := evs }
  | (.ok (tenantID, requestID, req, p), evs) =>
    let er := rt.executeStream now req p
    let evs := evs ++ (if er.2.2 then [GEvent.providerCalled p.name] else [])
    match er.2.1 with
    | .error e =>
      { resp := { status := 502, headers := [("Content-Type", "application/json")],
                  body := jsonErrorBody e },
        body200 := none, router := er.1, events := evs }
    | .ok chunks =>
      { resp := { status := 200,
                  headers := [("Content-Type", "text/event-stream"),
                              ("Cache-Control", "no-cache"), ("Connection", "keep-alive")],
                  body := sseBody chunks },
        body200 := none, router := er.1,
        events := evs ++
          [GEvent.usageEnqueued (streamUsageLog tenantID requestID p.name req.model)] }

/-- OpenAI adapter: wire `delta` object of a streamed choice. -/
structure OpenAIDelta where
  content : String
  deriving DecidableEq

/-- OpenAI adapter: wire message object. -/
structure OpenAIMessage where
  role : String
  content : String
  deriving DecidableEq

/-- OpenAI adapter: wire choice (carries both `message` and `delta`; the
stream loop reads only `delta`). -/
structure OpenAIChoice where
  message : OpenAIMessage
  delta : OpenAIDelta
  deriving DecidableEq

/-- OpenAI adapter: wire usage object. -/
structure OpenAIUsage where
  promptTokens : Int
  completionTokens : Int
  deriving DecidableEq

/-- OpenAI adapter: the decoded `openAIResponse` payload. -/
structure OpenAIPayload where
  id : String
  choices : List OpenAIChoice
  usage : OpenAIUsage
  model : String
  deriving DecidableEq

/-- The SSE read loop of the OpenAI adapter's `CompleteStream` goroutine, over
the lines the upstream body yields (the list's end is `io.EOF`) — blank or
non-`data:` lines are skipped, `[DONE]` and EOF terminate with a done chunk,
an unmarshal failure terminates with an error chunk, a non-empty delta is
forwarded. `parse` abstracts `json.Unmarshal`. -/
def openaiStreamLoop (parse : String → Except String OpenAIPayload) :
    List String → List Chunk
  | [] => [{ delta := "", done := true, err := none }]
  | line :: rest =>
    let l := line.trim
    if l == "" || !(l.startsWith "data: ") then openaiStreamLoop parse rest
    else
      let data := l.drop 6
      if data == "[DONE]" then [{ delta := "", done := true, err := none }]
      else
        match parse data with
        | .error e => [{ delta := "", done := false, err := some e }]
        | .ok payload =>
          match payload.choices with
          | [] => openaiStreamLoop parse rest
          | c :: _ =>
            if c.delta.content == "" then openaiStreamLoop parse rest
            else { delta := c.delta.content, done := false, err := none } ::
              openaiStreamLoop parse rest

/-- The upstream HTTP outcome the OpenAI stream goroutine observes: a
transport error, or a response with its status, body and body lines. -/
inductive UpstreamStream where
  | transportError (e : String)
  | response (status : Nat) (body : String) (lines : List String)

/-- OpenAI adapter `CompleteStream`: the full chunk sequence the goroutine
sends before closing the channel (transport error and non-200 each yield a
single error chunk; 200 runs the read loop). -/
def openaiCompleteStreamChunks (parse : String → Except String OpenAIPayload) :
    UpstreamStream → List Chunk
  | .transportError e => [{ delta := "", done := false, err := some e }]
  | .response status body lines =>
    if status ≠ 200 then
      [{ delta := "", done := false,
         err := some ("openai api error (status " ++ toString status ++ "): " ++ body) }]
    else openaiStreamLoop parse lines

/-- Claude adapter: wire message. -/
structure ClaudeMessage where
  role : String
  content : String
  deriving DecidableEq

/-- Claude adapter: the `claudeRequest` wire body. -/
structure ClaudeRequest where
  model : String
  maxTokens : Int
  system : String
  messages : List ClaudeMessage
  stream : Bool
  deriving DecidableEq

/-- claude.go `mapRequest`'s message loop: a system message's content is
lifted into the top-level `system` field (the last one wins); every other
message keeps role `assistant` or is folded to `user`, in order. -/
def claudeCollect (ms : List Message) : String × List ClaudeMessage :=
  ms.foldl
    (fun acc m =>
      if m.role = "system" then (m.content, acc.2)
      else
        (acc.1,
         acc.2 ++ [{ role := if m.role = "assistant" then "assistant" else "user",
                     content := m.content }]))
    ("", [])

/-- claude.go `ClaudeProvider.mapRequest`. -/
def claudeMapRequest (req : Request) : ClaudeRequest :=
  let sm := claudeCollect req.messages
  { model := req.model,
    maxTokens := if req.maxTokens = 0 then 4096 else req.maxTokens,
    system := sm.1, messages := sm.2, stream := req.stream }

/-- claude.go `CompleteStream` maps the request and then forces `Stream = true`. -/
def claudeStreamRequest (req : Request) : ClaudeRequest :=
  { claudeMapRequest req with stream := true }

/-- Claude adapter: wire usage object. -/
structure ClaudeUsage where
  inputTokens : Int
  outputTokens : Int
  deriving DecidableEq

/-- Claude adapter: one wire content block. -/
structure ClaudeContent where
  type : String
  text : String
  deriving DecidableEq

/-- Claude adapter: the decoded `claudeResponse`. -/
structure ClaudeUpstreamResponse where
  id : String
  content : List ClaudeContent
  model : String
  usage : ClaudeUsage
  deriving DecidableEq

/-- claude.go `Complete`'s construction of the unified response from a decoded
200 body: first content block's text, the usage counts, and provider
"claude". `LatencyMs` is never assigned anywhere in the adapter or in
`Router.Execute`, so it keeps Go's zero value 0. -/
def claudeBuildResponse (cr : ClaudeUpstreamResponse) : Except String Response :=
  match cr.content with
  | [] => .error "claude api returned no content"
  | c :: _ =>
    .ok { id := cr.id, content := c.text, inputTokens := cr.usage.inputTokens,
          outputTokens := cr.usage.outputTokens, model := cr.model, provider := "claude",
          latencyMs := 0 }

/-- The Claude adapter as a `Provider` value: constants from claude.go, unary
completion = map the request, hit the abstract upstream, build the response. -/
def claudeProviderModel (upstream : ClaudeRequest → Except String ClaudeUpstreamResponse)
    (streamUpstream : Request → Except String (List Chunk)) : Provider :=
  { name := "claude",
    costPerInputToken := (8 : ℚ) / 10000000,
    costPerOutputToken := (4 : ℚ) / 1000000,
    supportedModels := ["claude-3-5-sonnet-20241022", "claude-3-5-haiku-20241022",
      "claude-3-opus-20240229", "claude-3-sonnet-20240229", "claude-3-haiku-20240307"],
    complete := fun req => (upstream (claudeMapRequest req)).bind claudeBuildResponse,
    completeStream := streamUpstream }

/-! ## Helper lemmas -/

/-- Splitting a list at the head of its filtered sublist: everything before
the first surviving element fails the test. -/
theorem filter_cons_split {α : Type} (pred : α → Bool) :
    ∀ (l : List α) (c : α) (rest : List α), l.filter pred = c :: rest →
      ∃ l₁ l₂, l = l₁ ++ c :: l₂ ∧ (∀ q ∈ l₁, pred q = false) ∧ pred c = true := by
  intro l
  induction l with
  | nil => intro c rest h; simp at h
  | cons a as ih =>
    intro c rest h
    by_cases ha : pred a = true
    · rw [List.filter_cons_of_pos ha] at h
      obtain ⟨hac, -⟩ := List.cons.inj h
      exact ⟨[], as, by rw [hac]; rfl, by simp, hac ▸ ha⟩
    · rw [List.filter_cons_of_neg ha] at h
      obtain ⟨l₁, l₂, hsplit, h₁, hc⟩ := ih c rest h
      refine ⟨a :: l₁, l₂, by rw [hsplit]; rfl, ?_, hc⟩
      intro q hq
      rcases List.mem_cons.mp hq with hqa | hql
      · exact hqa ▸ Bool.eq_false_iff.mpr ha
      · exact h₁ q hql

/-- The Go cost scan of `Route` picks the first element of `best :: l` whose
`cost_per_input_token` is minimal: all earlier elements are strictly more
expensive, all later ones at least as expensive. -/
theorem pickCheapest_split : ∀ (l : List Provider) (best : Provider),
    ∃ l₁ l₂, best :: l = l₁ ++ pickCheapest best l :: l₂ ∧
      (∀ q ∈ l₁, (pickCheapest best l).costPerInputToken < q.costPerInputToken) ∧
      (∀ q ∈ l₂, (pickCheapest best l).costPerInputToken ≤ q.costPerInputToken) := by
  intro l
  induction l with
  | nil => intro best; exact ⟨[], [], rfl, by simp, by simp⟩
  | cons p ps ih =>
    intro best
    by_cases hc : p.costPerInputToken < best.costPerInputToken
    · have hrw : pickCheapest best (p :: ps) = pickCheapest p ps := by
        simp [pickCheapest, hc]
      rw [hrw]
      obtain ⟨l₁, l₂, hsplit, h₁, h₂⟩ := ih p
      rcases l₁ with _ | ⟨q, l₁t⟩
      · simp only [List.nil_append] at hsplit
        obtain ⟨hrp, hl₂⟩ := List.cons.inj hsplit
        refine ⟨[best], l₂, ?_, ?_, h₂⟩
        · rw [List.cons_append, List.nil_append, ← hrp, ← hl₂]
        · intro q hq
          rcases List.mem_singleton.mp hq with rfl
          rw [← hrp]; exact hc
      · rw [List.cons_append] at hsplit
        obtain ⟨hqp, htail⟩ := List.cons.inj hsplit
        have hlt : (pickCheapest p ps).costPerInputToken < p.costPerInputToken := by
          have := h₁ q (List.mem_cons_self q l₁t)
          rwa [← hqp] at this
        refine ⟨best :: p :: l₁t, l₂, ?_, ?_, h₂⟩
        · rw [List.cons_append, List.cons_append, ← htail]
        · intro x hx
          rcases List.mem_cons.mp hx with rfl | hx
          · exact lt_trans hlt hc
          rcases List.mem_cons.mp hx with rfl | hx
          · exact hlt
          · exact h₁ x (List.mem_cons_of_mem q hx)
    · have hrw : pickCheapest best (p :: ps) = pickCheapest best ps := by
        simp [pickCheapest, hc]
      rw [hrw]
      obtain ⟨l₁, l₂, hsplit, h₁, h₂⟩ := ih best
      have hle : best.costPerInputToken ≤ p.costPerInputToken := le_of_not_lt hc
      rcases l₁ with _ | ⟨q, l₁t⟩
      · simp only [List.nil_append] at hsplit
        obtain ⟨hrb, hl₂⟩ := List.cons.inj hsplit
        refine ⟨[], p :: l₂, ?_, by simp, ?_⟩
        · rw [List.nil_append, ← hrb, ← hl₂]
        · intro x hx
          rcases List.mem_cons.mp hx with rfl | hx
          · rw [← hrb]; exact hle
          · exact h₂ x hx
      · rw [List.cons_append] at hsplit
        obtain ⟨hqb, htail⟩ := List.cons.inj hsplit
        have hltb : (pickCheapest best ps).costPerInputToken < best.costPerInputToken := by
          have := h₁ q (List.mem_cons_self q l₁t)
          rwa [← hqb] at this
        refine ⟨best :: p :: l₁t, l₂, ?_, ?_, h₂⟩
        · rw [List.cons_append, List.cons_append, ← htail]
        · intro x hx
          rcases List.mem_cons.mp hx with rfl | hx
          · exact hltb
          rcases List.mem_cons.mp hx with rfl | hx
          · exact lt_of_lt_of_le hltb hle
          · exact h₁ x (List.mem_cons_of_mem q hx)

/-- A provider returned by `Route` came from the candidate list. -/
theorem route_ok_candidate (rt : Router) (now : Int) (req : Request) (p : Provider)
    (h : rt.route now req = .ok p) :
    p ∈ rt.providers.filter (rt.candidateB now req) := by
  unfold Router.route at h
  rcases hf : rt.providers.filter (rt.candidateB now req) with _ | ⟨c, rest⟩
  · rw [hf] at h; exact absurd h (by simp)
  · rw [hf] at h
    dsimp only at h
    by_cases hm : req.model ≠ ""
    · rw [if_pos hm] at h
      obtain rfl := Except.ok.inj h
      exact hf ▸ List.mem_cons_self c rest
    · rw [if_neg hm] at h
      obtain rfl := Except.ok.inj h
      obtain ⟨l₁, l₂, hsplit, -, -⟩ := pickCheapest_split rest c
      rw [hsplit]
      exact List.mem_append_right l₁ (List.mem_cons_self _ _)

/-- Membership in the candidate list unfolded to the two Go conditions. -/
theorem candidateB_true_iff (rt : Router) (now : Int) (req : Request) (p : Provider) :
    rt.candidateB now req p = true ↔
      (((rt.breakers p.name).refresh now).state ≠ .opened ∧
        (req.model = "" ∨ req.model ∈ p.supportedModels)) := by
  unfold Router.candidateB
  simp [List.contains, List.elem_iff]

/-! ## Witness fixtures (concrete providers from the spec's section 8
scenarios; the `complete` behaviours are irrelevant to routing). -/

/-- Scenario 4 fixture: cost_in 10. -/
def fixtureExpensive : Provider :=
  { name := "expensive", costPerInputToken := 10, costPerOutputToken := 0,
    supportedModels := [], complete := fun _ => .error "unused",
    completeStream := fun _ => .error "unused" }

/-- Scenario 4 fixture: cost_in 1. -/
def fixtureCheap : Provider :=
  { name := "cheap", costPerInputToken := 1, costPerOutputToken := 0,
    supportedModels := [], complete := fun _ => .error "unused",
    completeStream := fun _ => .error "unused" }

/-- A request with no model pinned. -/
def fixtureEmptyReq : Request :=
  { model := "", messages := [], maxTokens := 0, temperature := 0, stream := false }

/-- Scenario 5 fixture: supports gpt-4 only. -/
def fixtureGpt4 : Provider :=
  { name := "gpt4-provider", costPerInputToken := 2, costPerOutputToken := 0,
    supportedModels := ["gpt-4"], complete := fun _ => .error "unused",
    completeStream := fun _ => .error "unused" }

/-- Scenario 5 fixture: supports claude-3 only. -/
def fixtureClaude3 : Provider :=
  { name := "claude-provider", costPerInputToken := 1, costPerOutputToken := 0,
    supportedModels := ["claude-3"], complete := fun _ => .error "unused",
    completeStream := fun _ => .error "unused" }

/-- A request pinned to claude-3. -/
def fixtureClaude3Req : Request :=
  { model := "claude-3", messages := [], maxTokens := 0, temperature := 0, stream := false }

/-! ## C2 -/

/-- C2: for every request whose model field is empty, `Route` returns the
provider with the strictly lowest cost-per-input-token among the providers
whose breaker is not open (the candidate list, which preserves registration
order), breaking ties in favour of the earlier provider: the candidate list
splits around the returned provider with every earlier candidate strictly
more expensive and every later candidate at least as expensive. -/
theorem c2_route_unpinned_cheapest (rt : Router) (now : Int) (req : Request) (p : Provider)
    (hmodel : req.model = "") (h : rt.route now req = .ok p) :
    ∃ l₁ l₂, rt.providers.filter (rt.candidateB now req) = l₁ ++ p :: l₂ ∧
      (∀ q ∈ l₁, p.costPerInputToken < q.costPerInputToken) ∧
      (∀ q ∈ l₂, p.costPerInputToken ≤ q.costPerInputToken) := by
  unfold Router.route at h
  rcases hf : rt.providers.filter (rt.candidateB now req) with _ | ⟨c, rest⟩
  · rw [hf] at h; exact absurd h (by simp)
  · rw [hf] at h
    dsimp only at h
    rw [if_neg (by simp [hmodel])] at h
    obtain rfl := Except.ok.inj h
    exact pickCheapest_split rest c

/-- Witness for C2, scenario 4 of the spec: two closed providers with costs 10
and 1 and an unpinned request; `Route` picks `cheap`. -/
theorem c2_route_unpinned_cheapest_witness :
    ∃ l₁ l₂,
      ((NewRouter [fixtureExpensive, fixtureCheap] 0).providers.filter
          ((NewRouter [fixtureExpensive, fixtureCheap] 0).candidateB 0 fixtureEmptyReq)) =
        l₁ ++ fixtureCheap :: l₂ ∧
      (∀ q ∈ l₁, fixtureCheap.costPerInputToken < q.costPerInputToken) ∧
      (∀ q ∈ l₂, fixtureCheap.costPerInputToken ≤ q.costPerInputToken) :=
  c2_route_unpinned_cheapest (NewRouter [fixtureExpensive, fixtureCheap] 0) 0
    fixtureEmptyReq fixtureCheap rfl rfl

/-! ## C3 -/

/-- C3: for every request whose model field is non-empty, `Route` keeps only
providers whose breaker is not open and whose supported-models list contains
the model, returns the first such provider in registration order (everything
registered before it fails the candidate test — no re-ordering by cost), and
returns the error "all providers unavailable" when no candidate remains. -/
theorem c3_route_pinned_first_match (rt : Router) (now : Int) (req : Request)
    (hmodel : req.model ≠ "") :
    (∀ p, rt.route now req = .ok p →
      ∃ l₁ l₂, rt.providers = l₁ ++ p :: l₂ ∧
        ((rt.breakers p.name).refresh now).state ≠ .opened ∧
        req.model ∈ p.supportedModels ∧
        ∀ q ∈ l₁, ¬ (((rt.breakers q.name).refresh now).state ≠ .opened ∧
          req.model ∈ q.supportedModels)) ∧
    ((∀ q ∈ rt.providers, ((rt.breakers q.name).refresh now).state = .opened ∨
        req.model ∉ q.supportedModels) →
      rt.route now req = .error "all providers unavailable") := by
  constructor
  · intro p h
    have hfneq := h
    unfold Router.route at h
    rcases hf : rt.providers.filter (rt.candidateB now req) with _ | ⟨c, rest⟩
    · rw [hf] at h; exact absurd h (by simp)
    · rw [hf] at h
      dsimp only at h
      rw [if_pos hmodel] at h
      obtain rfl := Except.ok.inj h
      obtain ⟨l₁, l₂, hsplit, h₁, hc⟩ := filter_cons_split (rt.candidateB now req) _ _ _ hf
      obtain ⟨hstate, hmem⟩ := (candidateB_true_iff rt now req c).mp hc
      refine ⟨l₁, l₂, hsplit, hstate, hmem.resolve_left hmodel, ?_⟩
      intro q hq hcand
      have : rt.candidateB now req q = true :=
        (candidateB_true_iff rt now req q).mpr ⟨hcand.1, Or.inr hcand.2⟩
      rw [h₁ q hq] at this
      exact Bool.false_ne_true this
  · intro hall
    have hf : rt.providers.filter (rt.candidateB now req) = [] := by
      rw [List.filter_eq_nil_iff]
      intro q hq hcand
      obtain ⟨hstate, hmem⟩ := (candidateB_true_iff rt now req q).mp hcand
      rcases hall q hq with hop | hnmem
      · exact hstate hop
      · exact hnmem (hmem.resolve_left hmodel)
    unfold Router.route
    rw [hf]

/-- Witness for C3, scenario 5 of the spec: a gpt-4 provider and a claude-3
provider, request pinned to claude-3; `Route` returns the claude provider,
and with the model pinned to a model nobody serves the error is returned. -/
theorem c3_route_pinned_first_match_witness :
    (∀ p, (NewRouter [fixtureGpt4, fixtureClaude3] 0).route 0 fixtureClaude3Req = .ok p →
      ∃ l₁ l₂, (NewRouter [fixtureGpt4, fixtureClaude3] 0).providers = l₁ ++ p :: l₂ ∧
        (((NewRouter [fixtureGpt4, fixtureClaude3] 0).breakers p.name).refresh 0).state ≠
          .opened ∧
        fixtureClaude3Req.model ∈ p.supportedModels ∧
        ∀ q ∈ l₁,
          ¬ ((((NewRouter [fixtureGpt4, fixtureClaude3] 0).breakers q.name).refresh 0).state ≠
              .opened ∧ fixtureClaude3Req.model ∈ q.supportedModels)) ∧
    ((∀ q ∈ (NewRouter [fixtureGpt4, fixtureClaude3] 0).providers,
        (((NewRouter [fixtureGpt4, fixtureClaude3] 0).breakers q.name).refresh 0).state =
          .opened ∨ fixtureClaude3Req.model ∉ q.supportedModels) →
      (NewRouter [fixtureGpt4, fixtureClaude3] 0).route 0 fixtureClaude3Req =
        .error "all providers unavailable") :=
  c3_route_pinned_first_match (NewRouter [fixtureGpt4, fixtureClaude3] 0) 0
    fixtureClaude3Req (by decide)

/-! ## C4 -/

/-- A provider whose completions always fail (used to trip the breaker). -/
def fixtureFailing : Provider :=
  { name := "p1", costPerInputToken := 1, costPerOutputToken := 0,
    supportedModels := [], complete := fun _ => .error "provider down",
    completeStream := fun _ => .error "provider down" }

/-- C4 (amended): after exactly 3 consecutive `Execute` failures against
provider `p` that all fall within the breaker's current 5-second counting
interval (no counter reset between them — hypotheses `h1`‥`h3`), every
subsequent `Route` call with no model filter, made before 30 seconds have
elapsed since the breaker opened at the third failure, never returns a
provider with `p`'s name. -/
theorem c4_breaker_trip (providers : List Provider) (p : Provider) (req reqq : Request)
    (e : String) (g t1 t2 t3 t : Int)
    (hfail : p.complete req = .error e)
    (h1 : ¬ g + 5 < t1) (h2 : ¬ g + 5 < t2) (h3 : ¬ g + 5 < t3)
    (ht : t3 ≤ t) (ht30 : ¬ t3 + 30 < t) (hmodel : reqq.model = "") :
    Except.map Provider.name
        (((((NewRouter providers g).execute t1 req p).1.execute t2 req p).1.execute
            t3 req p).1.route t reqq) ≠ Except.ok p.name := by
  intro hmap
  have hb :
      ((((NewRouter providers g).execute t1 req p).1.execute t2 req p).1.execute
          t3 req p).1.breakers p.name = ⟨.opened, 0, 0, 0, g, t3⟩ := by
    simp +decide [NewRouter, Router.execute, Router.update, Breaker.exec, Breaker.refresh,
      Breaker.runOp, Breaker.onFailure, newBreaker, hfail, h1, h2, h3]
  rcases hq : ((((NewRouter providers g).execute t1 req p).1.execute t2 req p).1.execute
      t3 req p).1.route t reqq with e2 | q
  · rw [hq] at hmap
    exact absurd hmap (by simp [Except.map])
  · rw [hq] at hmap
    simp only [Except.map] at hmap
    have hname := Except.ok.inj hmap
    have hcand := route_ok_candidate _ t reqq q hq
    rw [List.mem_filter] at hcand
    have hc := (candidateB_true_iff _ t reqq q).mp hcand.2
    rw [hname, hb] at hc
    exact hc.1 (by simp [Breaker.refresh, ht30])

/-- Witness for C4: a single always-failing provider, three failures at 0 s,
1 s and 2 s (one interval), a Route call at 20 s — within the 30-second open
window — cannot yield that provider's name. -/
theorem c4_breaker_trip_witness :
    Except.map Provider.name
        (((((NewRouter [fixtureFailing] 0).execute 0 fixtureEmptyReq fixtureFailing).1.execute
            1 fixtureEmptyReq fixtureFailing).1.execute 2 fixtureEmptyReq
            fixtureFailing).1.route 20 fixtureEmptyReq) ≠
      Except.ok fixtureFailing.name :=
  c4_breaker_trip [fixtureFailing] fixtureFailing fixtureEmptyReq fixtureEmptyReq
    "provider down" 0 0 1 2 20 rfl (by decide) (by decide) (by decide) (by decide)
    (by decide) rfl

/-- C4 counterexample to the claim as stated: three consecutive `Execute`
failures at 0 s, 6 s and 12 s (each landing in a fresh 5-second counting
interval, so the consecutive-failure counter never reaches 3), after which
the very next unpinned Route call — 0 seconds later, far less than 30 — still
returns the failing provider. -/
theorem c4_counterexample :
    ((((NewRouter [fixtureFailing] 0).execute 0 fixtureEmptyReq fixtureFailing).1.execute 6
        fixtureEmptyReq fixtureFailing).1.execute 12 fixtureEmptyReq fixtureFailing).1.route
      12 fixtureEmptyReq = .ok fixtureFailing := rfl

/-! ## C1 -/

/-- Inversion of a successful `prepare`: the request is the decoded body, the
tenant is the context's, and the selected provider is exactly `Route`'s
result for that request. -/
theorem prepare_ok_inv (rt : Router) (now : Int) (env : PrepareEnv) :
    ∀ tid rid req p evs, prepare rt now env = (.ok (tid, rid, req, p), evs) →
      env.decoded = some req ∧ tid = env.tenantID ∧ rt.route now req = .ok p := by
  unfold prepare
  repeat' split
  all_goals intro tid rid req p evs h
  all_goals simp_all [Prod.mk.injEq]

/-- A failed `prepare` never writes a 200. -/
theorem prepare_error_status (rt : Router) (now : Int) (env : PrepareEnv) :
    ∀ resp evs, prepare rt now env = (.error resp, evs) → resp.status ≠ 200 := by
  unfold prepare
  repeat' split
  all_goals intro resp evs h
  all_goals injection h with h1 h2
  all_goals first
    | (injection h1; done)
    | (injection h1 with h3; rw [← h3]; dsimp only; omega)

/-- C1: every request that terminates with a successful unary completion (the
handler answered 200) enqueues a usage log whose `cost_usd` equals
`input_tokens × cost_in + output_tokens × cost_out` computed with the rates
of the provider `Route` selected for that request. -/
theorem c1_cost_formula (rt : Router) (now : Int) (env : PrepareEnv) (req : Request)
    (hdec : env.decoded = some req)
    (h200 : (handleComplete rt now env).resp.status = 200) :
    ∃ p, rt.route now req = .ok p ∧
      ∃ log, GEvent.usageEnqueued log ∈ (handleComplete rt now env).events ∧
        log.costUSD = (log.inputTokens : ℚ) * p.costPerInputToken
          + (log.outputTokens : ℚ) * p.costPerOutputToken := by
  unfold handleComplete at h200 ⊢
  rcases hp : prepare rt now env with ⟨res, evs⟩
  rcases res with resp | ⟨tid, rid, req', p⟩
  · rw [hp] at h200
    dsimp only at h200
    exact absurd h200 (prepare_error_status rt now env resp evs hp)
  · rw [hp] at h200
    obtain ⟨hd, -, hroute⟩ := prepare_ok_inv rt now env tid rid req' p evs hp
    obtain rfl : req' = req := by rw [hdec] at hd; exact (Option.some.inj hd).symm
    dsimp only at h200 ⊢
    rcases her : rt.execute now req' p with ⟨rt2, res2, att⟩
    rw [her] at h200
    rcases res2 with e | response
    · dsimp only at h200
      exact absurd h200 (by decide)
    · dsimp only at h200 ⊢
      refine ⟨p, hroute,
        { tenantID := tid, requestID := rid, provider := response.provider,
          model := response.model, inputTokens := response.inputTokens,
          outputTokens := response.outputTokens,
          costUSD := (response.inputTokens : ℚ) * p.costPerInputToken
            + (response.outputTokens : ℚ) * p.costPerOutputToken,
          latencyMs := response.latencyMs },
        ?_, rfl⟩
      exact List.mem_append_right _ (List.mem_singleton.mpr rfl)

/-- A provider that succeeds with 10 input and 20 output tokens and costs 3
per input token, 7 per output token. -/
def fixtureWorking : Provider :=
  { name := "prov", costPerInputToken := 3, costPerOutputToken := 7,
    supportedModels := ["gpt-4"],
    complete := fun r =>
      .ok { id := "rid", content := "hello", inputTokens := 10, outputTokens := 20,
            model := r.model, provider := "prov", latencyMs := 0 },
    completeStream := fun _ => .ok [⟨"hi", false, none⟩, ⟨"", true, none⟩] }

/-- A well-formed unary request pinned to gpt-4. -/
def fixtureReq : Request :=
  { model := "gpt-4", messages := [⟨"user", "hello"⟩], maxTokens := 100, temperature := 0,
    stream := false }

/-- A fully authorised environment whose limiter store admits everything. -/
def fixtureEnv : PrepareEnv :=
  { tenantID := "tenant-1", requestID := "", decoded := some fixtureReq,
    store := fun _ _ => .ok true, freshID := "uuid-1" }

/-- Witness for C1: the concrete success run enqueues a log with
cost = 10 × 3 + 20 × 7. -/
theorem c1_cost_formula_witness :
    ∃ p, (NewRouter [fixtureWorking] 0).route 0 fixtureReq = .ok p ∧
      ∃ log, GEvent.usageEnqueued log ∈
          (handleComplete (NewRouter [fixtureWorking] 0) 0 fixtureEnv).events ∧
        log.costUSD = (log.inputTokens : ℚ) * p.costPerInputToken
          + (log.outputTokens : ℚ) * p.costPerOutputToken :=
  c1_cost_formula (NewRouter [fixtureWorking] 0) 0 fixtureEnv fixtureReq rfl (by decide)

/-! ## C5 -/

/-- C5: past authentication and decode, the limiter is debited with the
request's `max_tokens`, or 1000 when non-positive (first conjunct, which in
particular covers every admitted request); and whenever the limiter denies or
its store errors, the handler responds 429 with header `Retry-After: 60s` and
exactly the body `\x7b"error":"rate limit exceeded","retry_after":"60s"\x7d`
(plus the encoder's trailing newline), and the event trace is the lone
limiter debit — `Route` was not called and no provider was invoked. -/
theorem c5_limiter_estimate_and_429 (rt : Router) (now : Int) (env : PrepareEnv)
    (req : Request) (htenant : env.tenantID ≠ "") (hdec : env.decoded = some req) :
    (GEvent.limiterDebit env.tenantID (if req.maxTokens ≤ 0 then 1000 else req.maxTokens) ∈
      (handleComplete rt now env).events) ∧
    ((limiterAllow env.store env.tenantID (estimateTokens req)).1 = false ∨
        (limiterAllow env.store env.tenantID (estimateTokens req)).2.isSome →
      (handleComplete rt now env).resp =
        { status := 429,
          headers := [("Content-Type", "application/json"), ("Retry-After", "60s")],
          body := "\x7b\"error\":\"rate limit exceeded\",\"retry_after\":\"60s\"\x7d\n" } ∧
      (handleComplete rt now env).events =
        [GEvent.limiterDebit env.tenantID (estimateTokens req)]) := by
  constructor
  · unfold handleComplete
    rcases hp : prepare rt now env with ⟨res, evs⟩
    have hmem : GEvent.limiterDebit env.tenantID
        (if req.maxTokens ≤ 0 then 1000 else req.maxTokens) ∈ evs := by
      unfold prepare at hp
      rw [if_neg htenant, hdec] at hp
      dsimp only at hp
      split at hp
      · obtain ⟨-, rfl⟩ := Prod.mk.inj hp
        exact List.mem_singleton.mpr rfl
      · split at hp
        · obtain ⟨-, rfl⟩ := Prod.mk.inj hp
          exact List.mem_cons_self _ _
        · obtain ⟨-, rfl⟩ := Prod.mk.inj hp
          exact List.mem_cons_self _ _
    rcases res with resp | ⟨tid, rid, req', p⟩
    · exact hmem
    · dsimp only
      rcases her : rt.execute now req' p with ⟨rt2, res2, att⟩
      rcases res2 with e | response
      · exact List.mem_append_left _ hmem
      · exact List.mem_append_left _ (List.mem_append_left _ hmem)
  · intro hdeny
    have hcond : ((limiterAllow env.store env.tenantID (estimateTokens req)).2.isSome = true ∨
        (limiterAllow env.store env.tenantID (estimateTokens req)).1 = false) := by
      rcases hdeny with h | h
      · exact Or.inr h
      · exact Or.inl h
    have hp : prepare rt now env =
        (.error { status := 429,
                  headers := [("Content-Type", "application/json"), ("Retry-After", "60s")],
                  body := rateLimitBody },
         [GEvent.limiterDebit env.tenantID (estimateTokens req)]) := by
      unfold prepare
      rw [if_neg htenant, hdec]
      dsimp only
      rw [if_pos hcond]
    unfold handleComplete
    rw [hp]
    exact ⟨rfl, rfl⟩

/-- An environment whose limiter store denies. -/
def fixtureDenyEnv : PrepareEnv :=
  { tenantID := "tenant-1", requestID := "", decoded := some fixtureReq,
    store := fun _ _ => .ok false, freshID := "uuid-1" }

/-- Witness for C5: a denied concrete request gets the exact 429 response and
only the debit event. -/
theorem c5_limiter_estimate_and_429_witness :
    (GEvent.limiterDebit fixtureDenyEnv.tenantID
        (if fixtureReq.maxTokens ≤ 0 then 1000 else fixtureReq.maxTokens) ∈
      (handleComplete (NewRouter [fixtureWorking] 0) 0 fixtureDenyEnv).events) ∧
    ((limiterAllow fixtureDenyEnv.store fixtureDenyEnv.tenantID
          (estimateTokens fixtureReq)).1 = false ∨
        (limiterAllow fixtureDenyEnv.store fixtureDenyEnv.tenantID
          (estimateTokens fixtureReq)).2.isSome →
      (handleComplete (NewRouter [fixtureWorking] 0) 0 fixtureDenyEnv).resp =
        { status := 429,
          headers := [("Content-Type", "application/json"), ("Retry-After", "60s")],
          body := "\x7b\"error\":\"rate limit exceeded\",\"retry_after\":\"60s\"\x7d\n" } ∧
      (handleComplete (NewRouter [fixtureWorking] 0) 0 fixtureDenyEnv).events =
        [GEvent.limiterDebit fixtureDenyEnv.tenantID (estimateTokens fixtureReq)]) :=
  c5_limiter_estimate_and_429 (NewRouter [fixtureWorking] 0) 0 fixtureDenyEnv fixtureReq
    (by decide) rfl

/-! ## C6 -/

/-- `ExecuteStream`'s forwarding goroutine forwards the delivered chunk
sequence unchanged (it only reports error chunks to the breaker). -/
theorem wrapStream_snd (now : Int) : ∀ (l : List Chunk) (cb : Breaker),
    (wrapStream cb now l).2 = l := by
  intro l
  induction l with
  | nil => intro cb; rfl
  | cons c rest ih =>
    intro cb
    rw [wrapStream]
    dsimp only
    rw [ih]

/-- The OpenAI stream read loop always produces a list of plain delta chunks
followed by exactly one terminal chunk. -/
theorem openaiStreamLoop_shape (parse : String → Except String OpenAIPayload) :
    ∀ lines, ∃ (ds : List String) (term : Chunk),
      openaiStreamLoop parse lines =
        (ds.map fun s => { delta := s, done := false, err := none }) ++ [term] ∧
      (term.done = true ∨ term.err ≠ none) := by
  intro lines
  induction lines with
  | nil => exact ⟨[], { delta := "", done := true, err := none }, rfl, Or.inl rfl⟩
  | cons line rest ih =>
    simp only [openaiStreamLoop]
    split
    · exact ih
    · split
      · exact ⟨[], { delta := "", done := true, err := none }, rfl, Or.inl rfl⟩
      · split
        · rename_i e heq
          exact ⟨[], { delta := "", done := false, err := some e }, rfl, Or.inr (by simp)⟩
        · split
          · exact ih
          · split
            · exact ih
            · rename_i c tail heqc hne
              obtain ⟨ds, term, hshape, hterm⟩ := ih
              exact ⟨c.delta.content :: ds, term, by rw [hshape]; rfl, hterm⟩

/-- C6: for any upstream behaviour (transport error, non-200, or any body
line sequence) and any unmarshal behaviour, the chunk stream the OpenAI
adapter delivers is a (possibly empty) prefix of delta chunks followed by
exactly one terminal chunk (done or error), and the wrapped channel
`ExecuteStream` builds forwards exactly that sequence — closed right after
the terminal chunk, nothing forwarded beyond it. -/
theorem c6_stream_shape (parse : String → Except String OpenAIPayload)
    (up : UpstreamStream) (cb : Breaker) (now : Int) :
    (wrapStream cb now (openaiCompleteStreamChunks parse up)).2 =
      openaiCompleteStreamChunks parse up ∧
    ∃ (ds : List String) (term : Chunk),
      openaiCompleteStreamChunks parse up =
        (ds.map fun s => { delta := s, done := false, err := none }) ++ [term] ∧
      (term.done = true ∨ term.err ≠ none) := by
  refine ⟨wrapStream_snd now _ cb, ?_⟩
  cases up with
  | transportError e =>
    exact ⟨[], { delta := "", done := false, err := some e }, rfl, Or.inr (by simp)⟩
  | response status body lines =>
    rw [openaiCompleteStreamChunks]
    split
    · exact ⟨[],
        { delta := "", done := false,
          err := some ("openai api error (status " ++ toString status ++ "): " ++ body) },
        rfl, Or.inr (by simp)⟩
    · exact openaiStreamLoop_shape parse lines

/-! ## C7 -/

/-- C7 (amended): in the streaming handler's write loop, a stream of delta
chunks with contents `ds` followed by a terminal chunk produces exactly one
`data: \x7b"choices":[\x7b"delta":\x7b"content":"<s-escaped>"\x7d,"index":0\x7d]\x7d\n\n`
frame per delta (with `"` and newline escaped), then for a done chunk exactly
`data: [DONE]\n\n` and the stream ends (chunks after the terminal are never
written), and for an error chunk with message `m` exactly
`event: error\ndata: \x7b"error": "<m>"\x7d\n\n` — with a space after the
colon — and the stream ends. -/
theorem c7_sse_frames (ds : List String) (m : String) (junk : List Chunk) :
    sseBody ((ds.map fun s => { delta := s, done := false, err := none }) ++
        ({ delta := "", done := true, err := none } : Chunk) :: junk) =
      (ds.map fun s =>
          "data: \x7b\"choices\":[\x7b\"delta\":\x7b\"content\":\"" ++ escapeDelta s ++
            "\"\x7d,\"index\":0\x7d]\x7d\n\n").foldr (· ++ ·) "data: [DONE]\n\n" ∧
    sseBody ((ds.map fun s => { delta := s, done := false, err := none }) ++
        ({ delta := "", done := false, err := some m } : Chunk) :: junk) =
      (ds.map fun s =>
          "data: \x7b\"choices\":[\x7b\"delta\":\x7b\"content\":\"" ++ escapeDelta s ++
            "\"\x7d,\"index\":0\x7d]\x7d\n\n").foldr (· ++ ·)
        ("event: error\ndata: \x7b\"error\": \"" ++ m ++ "\"\x7d\n\n") := by
  induction ds with
  | nil => exact ⟨rfl, rfl⟩
  | cons s rest ih =>
    refine ⟨?_, ?_⟩
    · show deltaFrame s ++ sseBody _ = _
      rw [List.append_eq, ih.1]
      rfl
    · show deltaFrame s ++ sseBody _ = _
      rw [List.append_eq, ih.2]
      rfl

/-- C7 counterexample to the claim as stated: the error frame the handler
actually writes for message "boom" is `event: error\ndata: \x7b"error": "boom"\x7d`
(a space after the colon, from the Go format string), not the claimed
`event: error\ndata: \x7b"error":"boom"\x7d`. -/
theorem c7_counterexample :
    sseBody [{ delta := "", done := false, err := some "boom" }] ≠
      "event: error\ndata: \x7b\"error\":\"boom\"\x7d\n\n" := by
  decide

/-! ## C9 -/

/-- Test for the asynchronous usage-log enqueue event. -/
def isUsageEvent : GEvent → Bool
  | .usageEnqueued _ => true
  | _ => false

/-- `prepare` never enqueues a usage log. -/
theorem prepare_no_usage (rt : Router) (now : Int) (env : PrepareEnv) :
    ∀ res evs, prepare rt now env = (res, evs) → evs.filter isUsageEvent = [] := by
  unfold prepare
  repeat' split
  all_goals intro res evs h
  all_goals injection h with h1 h2
  all_goals rw [← h2]
  all_goals rfl

/-- C9 (amended): a unary request that terminates successfully (200) initiates
exactly one usage-log enqueue; a unary request that terminates with a
provider error (502) initiates none; a streaming request whose stream was
delivered (200) initiates exactly one after the stream ends. -/
theorem c9_usage_log_once (rt : Router) (now : Int) (env : PrepareEnv) :
    ((handleComplete rt now env).resp.status = 200 →
      ((handleComplete rt now env).events.filter isUsageEvent).length = 1) ∧
    ((handleComplete rt now env).resp.status = 502 →
      ((handleComplete rt now env).events.filter isUsageEvent).length = 0) ∧
    ((handleCompleteStream rt now env).resp.status = 200 →
      ((handleCompleteStream rt now env).events.filter isUsageEvent).length = 1) := by
  rcases hp : prepare rt now env with ⟨res, evs⟩
  have hevs := prepare_no_usage rt now env res evs hp
  refine ⟨?_, ?_, ?_⟩
  · unfold handleComplete
    rw [hp]
    rcases res with resp | ⟨tid, rid, req', p⟩
    · intro h200
      dsimp only at h200
      exact absurd h200 (prepare_error_status rt now env resp evs hp)
    · dsimp only
      rcases her : rt.execute now req' p with ⟨rt2, res2, att⟩
      rcases res2 with e | response
      · intro h200
        dsimp only at h200
        exact absurd h200 (by decide)
      · intro h200
        dsimp only
        rw [List.filter_append, List.filter_append, hevs]
        cases att <;> simp [isUsageEvent]
  · unfold handleComplete
    rw [hp]
    rcases res with resp | ⟨tid, rid, req', p⟩
    · intro h502
      dsimp only
      rw [hevs]
      rfl
    · dsimp only
      rcases her : rt.execute now req' p with ⟨rt2, res2, att⟩
      rcases res2 with e | response
      · intro h502
        dsimp only
        rw [List.filter_append, hevs]
        cases att <;> simp [isUsageEvent]
      · intro h502
        dsimp only at h502
        exact absurd h502 (by decide)
  · unfold handleCompleteStream
    rw [hp]
    rcases res with resp | ⟨tid, rid, req', p⟩
    · intro h200
      dsimp only at h200
      exact absurd h200 (prepare_error_status rt now env resp evs hp)
    · dsimp only
      rcases her : rt.executeStream now req' p with ⟨rt2, res2, att⟩
      rcases res2 with e | chunks
      · intro h200
        dsimp only at h200
        exact absurd h200 (by decide)
      · intro h200
        dsimp only
        rw [List.filter_append, List.filter_append, hevs]
        cases att <;> simp [isUsageEvent]

/-- Witness for C9: the concrete successful unary and streaming runs each
enqueue exactly one usage log. -/
theorem c9_usage_log_once_witness :
    (((handleComplete (NewRouter [fixtureWorking] 0) 0 fixtureEnv).events.filter
        isUsageEvent).length = 1) ∧
    (((handleCompleteStream (NewRouter [fixtureWorking] 0) 0 fixtureEnv).events.filter
        isUsageEvent).length = 1) :=
  ⟨(c9_usage_log_once (NewRouter [fixtureWorking] 0) 0 fixtureEnv).1 (by decide),
   (c9_usage_log_once (NewRouter [fixtureWorking] 0) 0 fixtureEnv).2.2 (by decide)⟩

/-- An authorised environment around an unpinned request, admitted by the
limiter. -/
def fixtureFailEnv : PrepareEnv :=
  { tenantID := "tenant-1", requestID := "", decoded := some fixtureEmptyReq,
    store := fun _ _ => .ok true, freshID := "uuid-1" }

/-- C9 counterexample to the claim as stated: a unary request terminating
with a provider error (502 written to the client) initiates zero usage-log
appends, not exactly one. -/
theorem c9_counterexample :
    (handleComplete (NewRouter [fixtureFailing] 0) 0 fixtureFailEnv).resp.status = 502 ∧
    ((handleComplete (NewRouter [fixtureFailing] 0) 0 fixtureFailEnv).events.filter
      isUsageEvent).length = 0 := by
  exact ⟨by decide, by decide⟩

/-! ## C10 -/

/-- C10: the Claude adapter's request mapping (used verbatim by `Complete`,
and by `CompleteStream` which only forces `stream := true` on top of it)
sends `max_tokens = 4096` when the unified request's MaxTokens is exactly 0,
and forwards any non-zero value — negative values included — unchanged. -/
theorem c10_claude_max_tokens (req : Request) :
    (req.maxTokens = 0 →
      (claudeMapRequest req).maxTokens = 4096 ∧
        (claudeStreamRequest req).maxTokens = 4096) ∧
    (req.maxTokens ≠ 0 →
      (claudeMapRequest req).maxTokens = req.maxTokens ∧
        (claudeStreamRequest req).maxTokens = req.maxTokens) := by
  constructor
  · intro h
    constructor <;> simp [claudeStreamRequest, claudeMapRequest, h]
  · intro h
    constructor <;> simp [claudeStreamRequest, claudeMapRequest, h]

/-- Witness for C10 at MaxTokens 0 and MaxTokens -5. -/
theorem c10_claude_max_tokens_witness :
    ((claudeMapRequest { fixtureEmptyReq with maxTokens := 0 }).maxTokens = 4096 ∧
      (claudeStreamRequest { fixtureEmptyReq with maxTokens := 0 }).maxTokens = 4096) ∧
    ((claudeMapRequest { fixtureEmptyReq with maxTokens := -5 }).maxTokens = -5 ∧
      (claudeStreamRequest { fixtureEmptyReq with maxTokens := -5 }).maxTokens = -5) :=
  ⟨(c10_claude_max_tokens { fixtureEmptyReq with maxTokens := 0 }).1 rfl,
   (c10_claude_max_tokens { fixtureEmptyReq with maxTokens := -5 }).2 (by decide)⟩

/-! ## C8 -/

/-- A result the breaker hands back from a successful call is the wrapped
operation's own result. -/
theorem exec_ok_inv (b : Breaker) (now : Int) (op : Unit → Except String Response)
    (r : Response) (h : (b.exec now op).2.1 = .ok r) : op () = .ok r := by
  unfold Breaker.exec at h
  dsimp only at h
  split at h
  · exact absurd h (by simp)
  · split at h
    · exact absurd h (by simp)
    · unfold Breaker.runOp at h
      split at h
      · rename_i r2 heq
        rw [heq]
        dsimp only at h
        rw [Except.ok.inj h]
      · exact absurd h (by simp)
  · unfold Breaker.runOp at h
    split at h
    · rename_i r2 heq
      rw [heq]
      dsimp only at h
      rw [Except.ok.inj h]
    · exact absurd h (by simp)

/-- C8, the code evaluated at the claim: `Router.Execute` returns the
provider's response unchanged, and the Claude adapter builds its unified
response without ever assigning `LatencyMs` (Go zero value 0) — no code path
measures wall-clock time, so a successful unary execution always reports
latency_ms = 0, whatever time elapsed. -/
theorem c8_latency_never_stamped
    (upstream : ClaudeRequest → Except String ClaudeUpstreamResponse)
    (streamUp : Request → Except String (List Chunk))
    (rt : Router) (now : Int) (req : Request) (r : Response)
    (h : (rt.execute now req (claudeProviderModel upstream streamUp)).2.1 = .ok r) :
    r.latencyMs = 0 := by
  unfold Router.execute at h
  dsimp only at h
  have hop := exec_ok_inv _ now _ r h
  dsimp only [claudeProviderModel] at hop
  rcases hu : upstream (claudeMapRequest req) with e | cr
  · rw [hu] at hop
    exact absurd hop (by simp [Except.bind])
  · rw [hu] at hop
    simp only [Except.bind] at hop
    unfold claudeBuildResponse at hop
    split at hop
    · exact absurd hop (by simp)
    · obtain rfl := Except.ok.inj hop
      rfl

/-- A concrete decoded Claude 200 body. -/
def fixtureClaudeUpstream : ClaudeRequest → Except String ClaudeUpstreamResponse :=
  fun _ =>
    .ok { id := "resp-1", content := [{ type := "text", text := "hi" }],
          model := "claude-3-opus-20240229",
          usage := { inputTokens := 3, outputTokens := 4 } }

/-- Witness for C8's evaluation: the concrete successful Claude execution
returns latency_ms = 0. -/
theorem c8_latency_never_stamped_witness :
    ({ id := "resp-1", content := "hi", inputTokens := 3, outputTokens := 4,
       model := "claude-3-opus-20240229", provider := "claude", latencyMs := 0 } :
      Response).latencyMs = 0 :=
  c8_latency_never_stamped fixtureClaudeUpstream (fun _ => .error "unused")
    (NewRouter [] 0) 0 fixtureEmptyReq _ rfl

end LLMGateway
